import Mathlib

set_option maxRecDepth 8000

/-! A verification development for the salary-bot core in `src/app_v3.py`:
the append-only accrual ledger with derived balance semantics, role
resolution, and the dialogue handlers that commit ledger and directory
mutations.  Python functions are embedded as pure Lean functions.  The
SQLite store is embedded as an explicit `Db` value whose three lists mirror
the `departments`, `employees` and `accruals` tables; the `try/except`
wrapper around every store access is embedded as a `fail` flag selecting
the exception branch.  Monetary amounts (SQL `REAL`) are embedded as exact
rationals.  User-visible replies are embedded as tagged messages (`Msg`),
since text/emoji formatting is presentation, outside the core. -/

/-- One row of the `departments` table (`init_db`, src/app_v3.py:70-78). -/
structure DepartmentRow where
  id : Int
  name : String
  emoji : String
  deriving DecidableEq, Repr

/-- One row of the `employees` table (`init_db`, src/app_v3.py:81-95). -/
structure EmployeeRow where
  id : Int
  full_name : String
  telegram_user_id : Option Int
  department_id : Int
  role : String
  position : String
  salary : Rat
  is_active : Bool
  deriving DecidableEq, Repr

/-- One row of the `accruals` table (`init_db`, src/app_v3.py:98-112). -/
structure AccrualRow where
  id : Int
  employee_id : Int
  amount : Rat
  kind : String
  comment : String
  period : Option String
  created_at : String
  created_by : Int
  deriving DecidableEq, Repr

/-- The whole SQLite database.  `nextDeptId` and `nextAccrualId` embed the
AUTOINCREMENT counters of the two tables that the code inserts into. -/
structure Db where
  departments : List DepartmentRow
  employees : List EmployeeRow
  accruals : List AccrualRow
  nextDeptId : Int
  nextAccrualId : Int
  deriving DecidableEq, Repr

/-- The schema CHECK constraint on `accruals.kind`
(`init_db`, src/app_v3.py:104). -/
def validKind (kind : String) : Bool :=
  kind == "salary" || kind == "bonus" || kind == "deduction" ||
    kind == "advance" || kind == "payout"

/-- Python `str.strip` on a character list. -/
def trimChars (cs : List Char) : List Char :=
  ((cs.dropWhile Char.isWhitespace).reverse.dropWhile Char.isWhitespace).reverse

/-- Python `str.strip` on strings. -/
def pyStrip (s : String) : String := String.mk (trimChars s.toList)

/-- Python `text.split(":", 1)[0]`: the characters before the first colon
(the whole text when no colon occurs). -/
def splitFirstColon (cs : List Char) : List Char :=
  cs.takeWhile (fun c => c != ':')

/-- Numeric value of a digit list. -/
def digitsVal (cs : List Char) : Nat :=
  cs.foldl (fun a c => a * 10 + (c.toNat - 48)) 0

/-- Unsigned part of the decimal parser: digits with an optional fractional
part, as accepted by Python `float` in plain decimal notation. -/
def pyFloatBody (sign : Rat) (body : List Char) : Option Rat :=
  let intPart := body.takeWhile Char.isDigit
  let rest := body.dropWhile Char.isDigit
  match rest with
  | [] => if intPart.isEmpty then none else some (sign * (digitsVal intPart : Rat))
  | '.' :: frac =>
    if frac.all Char.isDigit && (!intPart.isEmpty || !frac.isEmpty) then
      some (sign * ((digitsVal intPart : Rat) +
        (digitsVal frac : Rat) / ((10 : Rat) ^ frac.length)))
    else none
  | _ => none

/-- Python `float(...)` restricted to the plain decimal forms monetary
amounts take (optional sign, digits, optional fractional part); the value
is embedded as an exact rational. -/
def pyFloatChars (cs : List Char) : Option Rat :=
  match trimChars cs with
  | '-' :: rest => pyFloatBody (-1) rest
  | '+' :: rest => pyFloatBody 1 rest
  | rest => pyFloatBody 1 rest

/-- Python `int(...)` on a string: optional sign followed by digits, with
surrounding whitespace allowed. -/
def pyIntChars (cs : List Char) : Option Int :=
  match trimChars cs with
  | '-' :: rest =>
    if !rest.isEmpty && rest.all Char.isDigit then some (-(digitsVal rest : Int)) else none
  | '+' :: rest =>
    if !rest.isEmpty && rest.all Char.isDigit then some ((digitsVal rest : Int)) else none
  | rest =>
    if !rest.isEmpty && rest.all Char.isDigit then some ((digitsVal rest : Int)) else none

/-- Embeds `validate_amount` (src/app_v3.py:530-536): replace comma by dot,
strip, parse as a decimal number, and return it only when strictly
positive. -/
def validate_amount (amount_str : String) : Option Rat :=
  match pyFloatChars (amount_str.toList.map (fun c => if c == ',' then '.' else c)) with
  | none => none
  | some amount => if amount > 0 then some amount else none

/-- Role constant (src/app_v3.py:284). -/
def ROLE_SUPERADMIN : String := "superadmin"

/-- Role constant (src/app_v3.py:285). -/
def ROLE_MANAGER : String := "manager"

/-- Role constant (src/app_v3.py:286). -/
def ROLE_EMPLOYEE : String := "employee"

/-- Role constant (src/app_v3.py:287). -/
def ROLE_UNKNOWN : String := "unknown"

/-- The row returned by the query in `get_user_role`: the first active
employee bound to the given telegram identifier. -/
def findActiveBinding (db : Db) (user_id : Int) : Option EmployeeRow :=
  db.employees.find? (fun e => e.telegram_user_id == some user_id && e.is_active)

/-- Embeds `get_user_role` (src/app_v3.py:290-309).  The configured
super-administrator allow-list is checked before any store access; the
`try/except` around the directory lookup is embedded as the `fail` flag:
when the store raises, the function logs and falls through to `unknown`. -/
def get_user_role (superadmins : List Int) (db : Db) (fail : Bool) (user_id : Int) : String :=
  if user_id ∈ superadmins then ROLE_SUPERADMIN
  else if fail then ROLE_UNKNOWN
  else
    match findActiveBinding db user_id with
    | some row => if row.role == "manager" then ROLE_MANAGER else ROLE_EMPLOYEE
    | none => ROLE_UNKNOWN

/-- Embeds `get_manager_departments` (src/app_v3.py:326-338); `DISTINCT`
is embedded as `dedup`, the exception branch returns `[]`. -/
def get_manager_departments (db : Db) (fail : Bool) (user_id : Int) : List Int :=
  if fail then []
  else
    ((db.employees.filter
      (fun e => e.telegram_user_id == some user_id && e.role == "manager" && e.is_active)).map
        (fun e => e.department_id)).dedup

/-- Insertion step for ordering employees by name (`ORDER BY full_name`). -/
def insertByName (e : EmployeeRow) : List EmployeeRow → List EmployeeRow
  | [] => [e]
  | x :: xs => if e.full_name ≤ x.full_name then e :: x :: xs else x :: insertByName e xs

/-- Embeds `get_department_employees` (src/app_v3.py:341-353): active
employees of the department ordered by name; `[]` on a store exception. -/
def get_department_employees (db : Db) (fail : Bool) (department_id : Int) : List EmployeeRow :=
  if fail then []
  else
    (db.employees.filter
      (fun e => e.department_id == department_id && e.is_active)).foldr insertByName []

/-- Insertion step for ordering departments by identifier (`ORDER BY id`). -/
def insertById (d : DepartmentRow) : List DepartmentRow → List DepartmentRow
  | [] => [d]
  | x :: xs => if d.id ≤ x.id then d :: x :: xs else x :: insertById d xs

/-- Embeds `get_departments` (src/app_v3.py:393-402): all departments
ordered by identifier; `[]` on a store exception. -/
def get_departments (db : Db) (fail : Bool) : List DepartmentRow :=
  if fail then [] else db.departments.foldr insertById []

/-- Embeds `add_accrual` (src/app_v3.py:405-421).  The INSERT is subject to
the schema constraint `CHECK(kind IN (...))`; a violating kind makes the
store raise, which `add_accrual` re-raises after logging, embedded as
`Except.error`. -/
def add_accrual (db : Db) (employee_id : Int) (amount : Rat) (kind : String)
    (comment : String) (created_at : String) (created_by : Int) : Except String Db :=
  if validKind kind then
    Except.ok { db with
      accruals := db.accruals ++
        [{ id := db.nextAccrualId, employee_id := employee_id, amount := amount,
           kind := kind, comment := comment, period := none,
           created_at := created_at, created_by := created_by }],
      nextAccrualId := db.nextAccrualId + 1 }
  else
    Except.error "CHECK constraint failed: kind"

/-- The SQL-CASE summand counted positively by the balance query
(`kind IN ('salary', 'bonus')`). -/
def posAmount (r : AccrualRow) : Rat :=
  if r.kind == "salary" || r.kind == "bonus" then r.amount else 0

/-- The SQL-CASE summand counted negatively by the balance query
(`kind IN ('payout', 'advance', 'deduction')`). -/
def negAmount (r : AccrualRow) : Rat :=
  if r.kind == "payout" || r.kind == "advance" || r.kind == "deduction" then r.amount else 0

/-- Embeds `get_employee_balance` (src/app_v3.py:424-444): the difference
of the two COALESCE-d conditional sums over the employee's accrual rows;
`0.0` on a store exception. -/
def get_employee_balance (db : Db) (fail : Bool) (employee_id : Int) : Rat :=
  if fail then 0
  else
    let rows := db.accruals.filter (fun r => r.employee_id == employee_id)
    (rows.map posAmount).sum - (rows.map negAmount).sum

/-- Embeds `get_employee_by_name` (src/app_v3.py:447-468): strip the two
decorative glyphs, then return the first active exact-name match, scoped to
a department when a truthy department identifier is given; `none` on a
store exception. -/
def get_employee_by_name (db : Db) (fail : Bool) (full_name : String)
    (department_id : Option Int) : Option EmployeeRow :=
  if fail then none
  else
    let clean := String.mk
      (trimChars (full_name.toList.filter (fun c => c != '👤' && c != '👔')))
    let deptTruthy := match department_id with
      | some d => d != 0
      | none => false
    if deptTruthy then
      db.employees.find? (fun e =>
        e.full_name == clean && some e.department_id == department_id && e.is_active)
    else
      db.employees.find? (fun e => e.full_name == clean && e.is_active)

/-- Embeds `set_employee_salary` (src/app_v3.py:514-527): overwrite the
salary column of the matching employee row. -/
def set_employee_salary (db : Db) (employee_id : Int) (salary : Rat) : Db :=
  { db with employees := (db.employees.map
      (fun e => if e.id == employee_id then { e with salary := salary } else e)) }

/-- Embeds `add_department` (src/app_v3.py:375-390).  The UNIQUE constraint
on `departments.name` makes a duplicate INSERT raise, which the function
re-raises after logging, embedded as `Except.error`. -/
def add_department (db : Db) (name : String) (emoji : String) : Except String (Db × Int) :=
  if db.departments.any (fun d => d.name == name) then
    Except.error "UNIQUE constraint failed: departments.name"
  else
    Except.ok ({ db with
      departments := db.departments ++ [{ id := db.nextDeptId, name := name, emoji := emoji }],
      nextDeptId := db.nextDeptId + 1 }, db.nextDeptId)

/-- Largest accrual identifier in a row list: the subquery
`SELECT MAX(id) FROM accruals WHERE employee_id = ?` applied to the
already-filtered rows. -/
def maxAccrualId : List AccrualRow → Option Int
  | [] => none
  | r :: rs =>
    match maxAccrualId rs with
    | none => some r.id
    | some m => some (max r.id m)

/-- Embeds the inline statement
`UPDATE accruals SET period = ? WHERE id = (SELECT MAX(id) FROM accruals WHERE employee_id = ?)`
used by `give_salary` (src/app_v3.py:1352-1358) and its siblings. -/
def assign_period_last (db : Db) (employee_id : Int) (period : String) : Db :=
  match maxAccrualId (db.accruals.filter (fun r => r.employee_id == employee_id)) with
  | none => db
  | some m =>
    { db with accruals := (db.accruals.map
        (fun r => if r.id == m then { r with period := some period } else r)) }

/-- A value stored in the aiogram FSM context data mapping. -/
inductive Value where
  | int (i : Int)
  | rat (q : Rat)
  | str (s : String)
  deriving DecidableEq, Repr

/-- The per-conversation FSM context: the active state (step) name and the
key/value data mapping. -/
structure Ctx where
  fsmState : Option String
  data : List (String × Value)
  deriving DecidableEq, Repr

/-- Embeds `state.get_data()[k]` / `data.get(k)`. -/
def Ctx.getData (c : Ctx) (k : String) : Option Value :=
  (c.data.find? (fun p => p.fst == k)).map Prod.snd

/-- Embeds `state.update_data(k=v)`: merge one key into the mapping. -/
def Ctx.updateData (c : Ctx) (k : String) (v : Value) : Ctx :=
  { c with data := (k, v) :: c.data.filter (fun p => p.fst != k) }

/-- Embeds `state.set_state(s)`: change only the active state. -/
def Ctx.setState (c : Ctx) (s : Option String) : Ctx :=
  { c with fsmState := s }

/-- Embeds `state.clear()`: drop the active state and all data. -/
def Ctx.clear : Ctx := { fsmState := none, data := [] }

/-- Python truthiness of an optional context value expected to be an
integer identifier: `None` and `0` are falsy (`if not emp_id`). -/
def truthyInt : Option Value → Option Int
  | some (Value.int i) => if i == 0 then none else some i
  | _ => none

/-- The distinct user-visible replies the embedded handlers can send; exact
text/emoji formatting is presentation and is out of the core. -/
inductive Msg where
  | noAccess
  | badEmployeeFormat
  | promptAmount
  | badAmount
  | promptComment
  | accrualDone (amount : Rat) (employee_id : Int) (comment : String)
  | accrualFailed (err : String)
  | promptDeptNameAgain
  | deptAdded (name : String)
  | deptAddFailed (err : String)
  | noEmployeeSelected
  | nothingToPay
  | salaryPaid (amount : Rat)
  | payoutFailed (err : String)
  | salaryChanged (amount : Rat)
  | card (employee_id : Int)
  deriving DecidableEq, Repr

/-- Result of one handler invocation: the database after the turn, the
conversation context after the turn, and the replies sent. -/
structure Outcome where
  db : Db
  ctx : Ctx
  replies : List Msg
  deriving DecidableEq, Repr

/-- Embeds `accrual_choose_employee` (src/app_v3.py:1024-1043), including
its `require_role(ROLE_MANAGER)` decorator.  The handler parses the number
before the first colon of the stripped text and, when parsing succeeds,
stores it as `employee_id` and advances to the amount step; it performs no
check that the identifier lies in the manager's department scope. -/
def accrual_choose_employee (db : Db) (superadmins : List Int) (user_id : Int)
    (ctx : Ctx) (text : String) : Outcome :=
  if get_user_role superadmins db false user_id == ROLE_MANAGER then
    match pyIntChars (splitFirstColon (trimChars text.toList)) with
    | none => { db := db, ctx := ctx, replies := [Msg.badEmployeeFormat] }
    | some employee_id =>
      { db := db,
        ctx := (ctx.updateData "employee_id" (Value.int employee_id)).setState
          (some "AccrualStates.waiting_for_amount"),
        replies := [Msg.promptAmount] }
  else { db := db, ctx := ctx, replies := [Msg.noAccess] }

/-- Embeds `accrual_enter_amount` (src/app_v3.py:1046-1065), including its
`require_role(ROLE_MANAGER)` decorator: an invalid amount re-prompts the
same step, a valid one is stored and the flow advances to the comment
step. -/
def accrual_enter_amount (db : Db) (superadmins : List Int) (user_id : Int)
    (ctx : Ctx) (text : String) : Outcome :=
  if get_user_role superadmins db false user_id == ROLE_MANAGER then
    match validate_amount text with
    | none => { db := db, ctx := ctx, replies := [Msg.badAmount] }
    | some amount =>
      { db := db,
        ctx := (ctx.updateData "amount" (Value.rat amount)).setState
          (some "AccrualStates.waiting_for_comment"),
        replies := [Msg.promptComment] }
  else { db := db, ctx := ctx, replies := [Msg.noAccess] }

/-- Embeds `accrual_finish` (src/app_v3.py:1068-1098), including its
`require_role(ROLE_MANAGER)` decorator.  The commit calls `add_accrual`
with the literal kind `"accrual"`; an exception from the store (including
a CHECK violation, or a NOT NULL violation when a captured value is
missing) is caught, reported, and the context cleared. -/
def accrual_finish (db : Db) (superadmins : List Int) (user_id : Int)
    (ctx : Ctx) (text : String) (created_at : String) : Outcome :=
  if get_user_role superadmins db false user_id == ROLE_MANAGER then
    let comment := pyStrip text
    match ctx.getData "employee_id", ctx.getData "amount" with
    | some (Value.int employee_id), some (Value.rat amount) =>
      match add_accrual db employee_id amount "accrual"
          (if comment == "" then "Начисление" else comment) created_at user_id with
      | Except.ok db2 =>
        { db := db2, ctx := Ctx.clear,
          replies := [Msg.accrualDone amount employee_id comment] }
      | Except.error e =>
        { db := db, ctx := Ctx.clear, replies := [Msg.accrualFailed e] }
    | _, _ =>
      { db := db, ctx := Ctx.clear,
        replies := [Msg.accrualFailed "NOT NULL constraint failed"] }
  else { db := db, ctx := ctx, replies := [Msg.noAccess] }

/-- Embeds `give_salary` (src/app_v3.py:1320-1366), including its
`require_role(ROLE_SUPERADMIN)` decorator: with a pinned employee, a
strictly positive balance is paid out in full (one payout record, then the
period label is assigned to the most recent record); otherwise the handler
reports that there is nothing to pay and mutates nothing. -/
def give_salary (db : Db) (superadmins : List Int) (user_id : Int)
    (ctx : Ctx) (period : String) (created_at : String) : Outcome :=
  if get_user_role superadmins db false user_id == ROLE_SUPERADMIN then
    match truthyInt (ctx.getData "current_employee_id") with
    | none => { db := db, ctx := ctx, replies := [Msg.noEmployeeSelected] }
    | some emp_id =>
      let balance := get_employee_balance db false emp_id
      if balance ≤ 0 then
        { db := db, ctx := ctx, replies := [Msg.nothingToPay] }
      else
        match add_accrual db emp_id balance "payout"
            ("Выплата зарплаты за " ++ period) created_at user_id with
        | Except.ok db2 =>
          { db := assign_period_last db2 emp_id period, ctx := ctx,
            replies := [Msg.salaryPaid balance, Msg.card emp_id] }
        | Except.error e =>
          { db := db, ctx := ctx, replies := [Msg.payoutFailed e] }
  else { db := db, ctx := ctx, replies := [Msg.noAccess] }

/-- Embeds `change_salary_finish` (src/app_v3.py:1386-1410); this handler
carries no role decorator (the role was checked when the flow started).
An invalid or non-positive amount re-prompts; a missing pinned
`current_employee_id` is a terminal error clearing the context; otherwise
the salary is overwritten and only the FSM state is reset, the data
(including the pinned selection) is kept. -/
def change_salary_finish (db : Db) (ctx : Ctx) (text : String) : Outcome :=
  match validate_amount text with
  | none => { db := db, ctx := ctx, replies := [Msg.badAmount] }
  | some amount =>
    if amount < 0 then { db := db, ctx := ctx, replies := [Msg.badAmount] }
    else
      match truthyInt (ctx.getData "current_employee_id") with
      | none => { db := db, ctx := Ctx.clear, replies := [Msg.noEmployeeSelected] }
      | some emp_id =>
        { db := set_employee_salary db emp_id amount,
          ctx := ctx.setState none,
          replies := [Msg.salaryChanged amount, Msg.card emp_id] }

/-- Embeds `superadmin_add_department_finish` (src/app_v3.py:706-727),
including its `require_role(ROLE_SUPERADMIN)` decorator: an empty stripped
name re-prompts the same step; otherwise `add_department` is attempted and
either succeeds (context cleared, success reply) or raises (user-visible
error, context cleared, no re-prompt). -/
def superadmin_add_department_finish (db : Db) (superadmins : List Int) (user_id : Int)
    (ctx : Ctx) (text : String) : Outcome :=
  if get_user_role superadmins db false user_id == ROLE_SUPERADMIN then
    let name := pyStrip text
    if name == "" then { db := db, ctx := ctx, replies := [Msg.promptDeptNameAgain] }
    else
      match add_department db name "" with
      | Except.ok (db2, _) =>
        { db := db2, ctx := Ctx.clear, replies := [Msg.deptAdded name] }
      | Except.error e =>
        { db := db, ctx := Ctx.clear, replies := [Msg.deptAddFailed e] }
  else { db := db, ctx := ctx, replies := [Msg.noAccess] }

/-- Modelled from the spec (§3 Balance): the signed fold
`Σ(amount where kind ∈ {salary, bonus}) − Σ(amount where kind ∈ {payout, advance, deduction})`
over a record set, written as the spec words it (filter then sum), to be
compared with the SQL CASE-sum the code computes. -/
def specBalance (records : List AccrualRow) : Rat :=
  ((records.filter (fun r => r.kind ∈ (["salary", "bonus"] : List String))).map
    (fun r => r.amount)).sum -
  ((records.filter (fun r => r.kind ∈ (["payout", "advance", "deduction"] : List String))).map
    (fun r => r.amount)).sum

/-- An empty database, as `init_db` leaves a fresh store. -/
def emptyDb : Db :=
  { departments := [], employees := [], accruals := [], nextDeptId := 1, nextAccrualId := 1 }

/-- Fixture: a manager of department 1, bound to telegram identifier 100. -/
def empManager : EmployeeRow :=
  { id := 1, full_name := "Artamonov Dmitry", telegram_user_id := some 100,
    department_id := 1, role := "manager", position := "head of sales",
    salary := 0, is_active := true }

/-- Fixture: an employee of department 2, outside the manager's scope. -/
def empOutside : EmployeeRow :=
  { id := 7, full_name := "Vasya", telegram_user_id := none, department_id := 2,
    role := "employee", position := "", salary := 0, is_active := true }

/-- Fixture database with two departments and the two employees above. -/
def twoDeptDb : Db :=
  { departments := [{ id := 1, name := "Sales", emoji := "A" },
                    { id := 2, name := "Warehouse", emoji := "B" }],
    employees := [empManager, empOutside],
    accruals := [], nextDeptId := 3, nextAccrualId := 1 }

/-- Fixture context: the RecordAccrual flow awaiting an employee selection. -/
def awaitingEmployeeCtx : Ctx :=
  { fsmState := some "AccrualStates.waiting_for_employee", data := [] }

/-- Fixture context: the RecordAccrual flow awaiting the amount. -/
def awaitingAmountCtx : Ctx :=
  { fsmState := some "AccrualStates.waiting_for_amount",
    data := [("employee_id", Value.int 7)] }

/-- Fixture context: the RecordAccrual flow at its terminal comment step,
with employee 7 and amount 5000 captured. -/
def awaitingCommentCtx : Ctx :=
  { fsmState := some "AccrualStates.waiting_for_comment",
    data := [("amount", Value.rat 5000), ("employee_id", Value.int 7)] }

/-- Fixture accrual: a bonus of 10000 for employee 5. -/
def accrBonus : AccrualRow :=
  { id := 1, employee_id := 5, amount := 10000, kind := "bonus", comment := "plan",
    period := none, created_at := "t1", created_by := 100 }

/-- Fixture accrual: a deduction of 2000 for employee 5. -/
def accrDeduction : AccrualRow :=
  { id := 2, employee_id := 5, amount := 2000, kind := "deduction", comment := "late",
    period := none, created_at := "t2", created_by := 100 }

/-- Fixture database holding the two accruals above, in insertion order. -/
def ledgerDbA : Db :=
  { departments := [], employees := [], accruals := [accrBonus, accrDeduction],
    nextDeptId := 1, nextAccrualId := 3 }

/-- The same fixture database with the two accrual rows in swapped order. -/
def ledgerDbB : Db :=
  { departments := [], employees := [], accruals := [accrDeduction, accrBonus],
    nextDeptId := 1, nextAccrualId := 3 }

/-- Fixture context with employee 5 pinned as the current selection. -/
def pinnedCtx : Ctx :=
  { fsmState := none, data := [("current_employee_id", Value.int 5)] }

/-- Fixture database for the SetSalary flow: one employee with salary 100. -/
def salaryDb : Db :=
  { departments := [],
    employees := [{ id := 5, full_name := "Somebody", telegram_user_id := none,
                    department_id := 1, role := "employee", position := "",
                    salary := 100, is_active := true }],
    accruals := [], nextDeptId := 1, nextAccrualId := 1 }

/-- Fixture context: the SetSalary flow awaiting the amount, employee 5
pinned. -/
def setSalaryCtx : Ctx :=
  { fsmState := some "SetSalaryStates.waiting_for_amount",
    data := [("current_employee_id", Value.int 5)] }

/-- The balance query unfolded: difference of the two conditional sums over
the employee's rows. -/
theorem balance_eq (db : Db) (eid : Int) :
    get_employee_balance db false eid =
      ((db.accruals.filter (fun r => r.employee_id == eid)).map posAmount).sum -
      ((db.accruals.filter (fun r => r.employee_id == eid)).map negAmount).sum := rfl

/-- The positively counted SQL CASE-sum equals the sum of amounts over the
rows whose kind is in the positive set. -/
theorem posAmount_case (l : List AccrualRow) :
    (l.map posAmount).sum =
      ((l.filter (fun r => r.kind ∈ (["salary", "bonus"] : List String))).map
        (fun r => r.amount)).sum := by
  induction l with
  | nil => simp
  | cons r t ih =>
    simp only [List.map_cons, List.sum_cons, List.filter_cons, posAmount]
    by_cases h1 : r.kind = "salary"
    · simp [h1, ih]
    · by_cases h2 : r.kind = "bonus"
      · simp [h1, h2, ih]
      · simp [h1, h2, ih]

/-- The negatively counted SQL CASE-sum equals the sum of amounts over the
rows whose kind is in the negative set. -/
theorem negAmount_case (l : List AccrualRow) :
    (l.map negAmount).sum =
      ((l.filter (fun r => r.kind ∈ (["payout", "advance", "deduction"] : List String))).map
        (fun r => r.amount)).sum := by
  induction l with
  | nil => simp
  | cons r t ih =>
    simp only [List.map_cons, List.sum_cons, List.filter_cons, negAmount]
    by_cases h1 : r.kind = "payout"
    · simp [h1, ih]
    · by_cases h2 : r.kind = "advance"
      · simp [h1, h2, ih]
      · by_cases h3 : r.kind = "deduction"
        · simp [h1, h2, h3, ih]
        · simp [h1, h2, h3, ih]

/-- C1: for every employee and record multiset, `get_employee_balance`
returns the signed fold of the spec (sum over salary and bonus minus sum
over payout, advance and deduction), it returns exactly zero on an
employee with no records, and it is invariant under reordering of the
stored records. -/
theorem C1_balanceOf_signed_fold (db : Db) (eid : Int) :
    get_employee_balance db false eid =
      specBalance (db.accruals.filter (fun r => r.employee_id == eid))
    ∧ (db.accruals.filter (fun r => r.employee_id == eid) = [] →
        get_employee_balance db false eid = 0)
    ∧ ∀ db2 : Db, db.accruals.Perm db2.accruals →
        get_employee_balance db false eid = get_employee_balance db2 false eid := by
  refine ⟨?_, ?_, ?_⟩
  · rw [balance_eq, posAmount_case, negAmount_case, specBalance]
  · intro h
    rw [balance_eq, h]
    simp
  · intro db2 hp
    have hf := hp.filter (fun r => r.employee_id == eid)
    rw [balance_eq, balance_eq, ((hf.map posAmount).sum_eq), ((hf.map negAmount).sum_eq)]

/-- C1 witness: the fold equation, order-invariance over a concrete
two-record reordering, and the zero-record case, at concrete inputs. -/
theorem C1_balanceOf_signed_fold_witness :
    get_employee_balance ledgerDbA false 5 = get_employee_balance ledgerDbB false 5
    ∧ get_employee_balance ledgerDbA false 5 =
        specBalance (ledgerDbA.accruals.filter (fun r => r.employee_id == 5))
    ∧ get_employee_balance ledgerDbA false 9 = 0 :=
  ⟨(C1_balanceOf_signed_fold ledgerDbA 5).2.2 ledgerDbB
      (List.Perm.swap accrDeduction accrBonus []),
   (C1_balanceOf_signed_fold ledgerDbA 5).1,
   (C1_balanceOf_signed_fold ledgerDbA 9).2.1 rfl⟩

/-- C6: role resolution — an identifier on the super-administrator
allow-list resolves to `superadmin` regardless of directory contents and
of store health; otherwise an active bound employee resolves to `manager`
or `employee` according to its role tag, no binding resolves to `unknown`,
and a directory lookup failure resolves to `unknown` instead of
propagating. -/
theorem C6_role_resolution (sa : List Int) (db : Db) (fail : Bool) (uid : Int) :
    (uid ∈ sa → get_user_role sa db fail uid = ROLE_SUPERADMIN)
    ∧ (uid ∉ sa → ∀ row, findActiveBinding db uid = some row → row.role = "manager" →
        get_user_role sa db false uid = ROLE_MANAGER)
    ∧ (uid ∉ sa → ∀ row, findActiveBinding db uid = some row → row.role = "employee" →
        get_user_role sa db false uid = ROLE_EMPLOYEE)
    ∧ (uid ∉ sa → findActiveBinding db uid = none →
        get_user_role sa db false uid = ROLE_UNKNOWN)
    ∧ (uid ∉ sa → get_user_role sa db true uid = ROLE_UNKNOWN) := by
  refine ⟨?_, ?_, ?_, ?_, ?_⟩
  · intro h
    simp [get_user_role, h]
  · intro h row hrow hm
    simp [get_user_role, h, hrow, hm]
  · intro h row hrow hm
    simp [get_user_role, h, hrow, hm]
  · intro h hrow
    simp [get_user_role, h, hrow]
  · intro h
    simp [get_user_role, h]

/-- C6 witness: allow-list precedence over an existing active manager
binding, the manager and failure cases, at concrete inputs. -/
theorem C6_role_resolution_witness :
    get_user_role [100] twoDeptDb false 100 = ROLE_SUPERADMIN
    ∧ get_user_role [] twoDeptDb false 100 = ROLE_MANAGER
    ∧ get_user_role [] twoDeptDb true 100 = ROLE_UNKNOWN :=
  ⟨(C6_role_resolution [100] twoDeptDb false 100).1 (by decide),
   (C6_role_resolution [] twoDeptDb false 100).2.1
      (by decide) empManager (by with_unfolding_all rfl) rfl,
   (C6_role_resolution [] twoDeptDb false 100).2.2.2.2 (by decide)⟩

/-- C10: on a store exception the read and derive operations swallow the
error: the balance is `0`, the department and department-employee listings
are `[]`, the employee-by-name lookup is `none` — each indistinguishable
from the same operation run against a genuinely empty store. -/
theorem C10_store_failure_swallowed (db : Db) (eid did : Int) (nm : String)
    (dep : Option Int) :
    get_employee_balance db true eid = 0
    ∧ get_departments db true = []
    ∧ get_department_employees db true did = []
    ∧ get_employee_by_name db true nm dep = none
    ∧ get_employee_balance db true eid = get_employee_balance emptyDb false eid
    ∧ get_departments db true = get_departments emptyDb false
    ∧ get_department_employees db true did = get_department_employees emptyDb false did
    ∧ get_employee_by_name db true nm dep = get_employee_by_name emptyDb false nm dep := by
  refine ⟨rfl, rfl, rfl, rfl, ?_, rfl, rfl, ?_⟩
  · show (0 : Rat) = _
    rw [balance_eq]
    simp [emptyDb]
  · show (none : Option EmployeeRow) = _
    simp [get_employee_by_name, emptyDb, ite_self]

/-- C5: a successful `add_accrual` appends exactly one new record with the
supplied fields and the store-assigned identifier and timestamp, leaves
every prior record present and unchanged, leaves the other tables
untouched, and the employee's re-read history is the prior one plus
exactly the new entry. -/
theorem C5_append_frame (db : Db) (eid : Int) (amt : Rat) (k c ts : String) (cb : Int)
    (hk : validKind k = true) :
    ∃ db2, add_accrual db eid amt k c ts cb = Except.ok db2
      ∧ db2.accruals = db.accruals ++
          [{ id := db.nextAccrualId, employee_id := eid, amount := amt, kind := k,
             comment := c, period := none, created_at := ts, created_by := cb }]
      ∧ (∀ r ∈ db.accruals, r ∈ db2.accruals)
      ∧ db2.accruals.filter (fun r => r.employee_id == eid) =
          db.accruals.filter (fun r => r.employee_id == eid) ++
          [{ id := db.nextAccrualId, employee_id := eid, amount := amt, kind := k,
             comment := c, period := none, created_at := ts, created_by := cb }]
      ∧ db2.departments = db.departments ∧ db2.employees = db.employees := by
  unfold add_accrual
  rw [hk]
  simp only [if_true]
  refine ⟨_, rfl, rfl, ?_, ?_, rfl, rfl⟩
  · intro r hr
    exact List.mem_append_left _ hr
  · simp [List.filter_append]

/-- C5 witness: appending a bonus of 1000 for employee 7 to the two
department fixture store. -/
theorem C5_append_frame_witness :
    ∃ db2, add_accrual twoDeptDb 7 1000 "bonus" "plan" "t3" 100 = Except.ok db2
      ∧ db2.accruals = twoDeptDb.accruals ++
          [{ id := twoDeptDb.nextAccrualId, employee_id := 7, amount := 1000, kind := "bonus",
             comment := "plan", period := none, created_at := "t3", created_by := 100 }]
      ∧ (∀ r ∈ twoDeptDb.accruals, r ∈ db2.accruals)
      ∧ db2.accruals.filter (fun r => r.employee_id == 7) =
          twoDeptDb.accruals.filter (fun r => r.employee_id == 7) ++
          [{ id := twoDeptDb.nextAccrualId, employee_id := 7, amount := 1000, kind := "bonus",
             comment := "plan", period := none, created_at := "t3", created_by := 100 }]
      ∧ db2.departments = twoDeptDb.departments ∧ db2.employees = twoDeptDb.employees :=
  C5_append_frame twoDeptDb 7 1000 "bonus" "plan" "t3" 100 (by decide)

/-- C7: committing AddDepartment with a name equal to an existing
department's name leaves the store unchanged (department count included),
surfaces the user-visible store error, and clears the conversation context
instead of re-prompting. -/
theorem C7_duplicate_department_aborts (db : Db) (sa : List Int) (uid : Int) (ctx : Ctx)
    (text : String)
    (hrole : uid ∈ sa)
    (hdup : ∃ d, d ∈ db.departments ∧ d.name = pyStrip text)
    (hne : pyStrip text ≠ "") :
    superadmin_add_department_finish db sa uid ctx text =
      { db := db, ctx := Ctx.clear,
        replies := [Msg.deptAddFailed "UNIQUE constraint failed: departments.name"] }
    ∧ (superadmin_add_department_finish db sa uid ctx text).db.departments.length =
        db.departments.length := by
  have hr : get_user_role sa db false uid = ROLE_SUPERADMIN := by
    simp [get_user_role, hrole]
  have hany : db.departments.any (fun d => d.name == pyStrip text) = true := by
    obtain ⟨d, hd, hdn⟩ := hdup
    exact List.any_eq_true.mpr ⟨d, hd, by simp [hdn]⟩
  have hmain : superadmin_add_department_finish db sa uid ctx text =
      { db := db, ctx := Ctx.clear,
        replies := [Msg.deptAddFailed "UNIQUE constraint failed: departments.name"] } := by
    simp only [superadmin_add_department_finish, hr, beq_self_eq_true, if_true,
      beq_eq_false_iff_ne.mpr hne, Bool.false_eq_true, if_false, add_department, hany]
  exact ⟨hmain, by rw [hmain]⟩

/-- C7 witness: adding a second department named `Sales` to the fixture
store that already holds one. -/
theorem C7_duplicate_department_aborts_witness :
    superadmin_add_department_finish twoDeptDb [100] 100 Ctx.clear "Sales" =
      { db := twoDeptDb, ctx := Ctx.clear,
        replies := [Msg.deptAddFailed "UNIQUE constraint failed: departments.name"] }
    ∧ (superadmin_add_department_finish twoDeptDb [100] 100 Ctx.clear "Sales").db.departments.length =
        twoDeptDb.departments.length :=
  C7_duplicate_department_aborts twoDeptDb [100] 100 Ctx.clear "Sales" (by decide)
    ⟨{ id := 1, name := "Sales", emoji := "A" }, by decide, by decide⟩ (by decide)

/-- C9: an inbound value failing the current step's validation contract
leaves the conversation in the same step with the context and store
untouched and only a re-prompt reply — at the RecordAccrual amount step,
the SetSalary amount step, and (for an unparseable selection) the
RecordAccrual employee step. -/
theorem C9_validation_failure_reprompts (db : Db) (sa : List Int) (uid : Int) (ctx : Ctx)
    (text : String)
    (hrole : get_user_role sa db false uid = ROLE_MANAGER)
    (hbad : validate_amount text = none) :
    accrual_enter_amount db sa uid ctx text =
      { db := db, ctx := ctx, replies := [Msg.badAmount] }
    ∧ change_salary_finish db ctx text =
      { db := db, ctx := ctx, replies := [Msg.badAmount] }
    ∧ (pyIntChars (splitFirstColon (trimChars text.toList)) = none →
        accrual_choose_employee db sa uid ctx text =
          { db := db, ctx := ctx, replies := [Msg.badEmployeeFormat] }) := by
  refine ⟨?_, ?_, ?_⟩
  · simp only [accrual_enter_amount, hrole, beq_self_eq_true, if_true, hbad]
  · simp only [change_salary_finish, hbad]
  · intro hp
    simp only [accrual_choose_employee, hrole, beq_self_eq_true, if_true, hp]

/-- C9 witness: the malformed amount `abc` at the RecordAccrual amount
step and at the employee-selection step, for the fixture manager. -/
theorem C9_validation_failure_reprompts_witness :
    accrual_enter_amount twoDeptDb [] 100 awaitingAmountCtx "abc" =
      { db := twoDeptDb, ctx := awaitingAmountCtx, replies := [Msg.badAmount] }
    ∧ accrual_choose_employee twoDeptDb [] 100 awaitingAmountCtx "abc" =
      { db := twoDeptDb, ctx := awaitingAmountCtx, replies := [Msg.badEmployeeFormat] } :=
  ⟨(C9_validation_failure_reprompts twoDeptDb [] 100 awaitingAmountCtx "abc"
      (by decide) (by decide)).1,
   (C9_validation_failure_reprompts twoDeptDb [] 100 awaitingAmountCtx "abc"
      (by decide) (by decide)).2.2 (by decide)⟩

/-- C2: at the awaiting-employee step the manager's well-formed selection
`7: Vasya` names an employee of department 2 while the manager's scope is
department 1 only; the handler nevertheless accepts it — it captures
`employee_id = 7` and advances to the amount step with no authorization
refusal, performing no scope check. -/
theorem C2_out_of_scope_selection_accepted :
    get_user_role [] twoDeptDb false 100 = ROLE_MANAGER
    ∧ get_manager_departments twoDeptDb false 100 = [1]
    ∧ empOutside ∈ twoDeptDb.employees
    ∧ empOutside.id = 7
    ∧ empOutside.department_id ∉ get_manager_departments twoDeptDb false 100
    ∧ accrual_choose_employee twoDeptDb [] 100 awaitingEmployeeCtx "7: Vasya" =
        { db := twoDeptDb,
          ctx := { fsmState := some "AccrualStates.waiting_for_amount",
                   data := [("employee_id", Value.int 7)] },
          replies := [Msg.promptAmount] } := by
  refine ⟨by decide, by decide, by decide, rfl, by decide, by decide⟩

/-- C3: the terminal commit of the Manager RecordAccrual flow calls the
store with the literal kind `accrual`, which is outside the closed kind
set and rejected by the schema CHECK constraint: no record is appended, no
period is assigned, and the user sees the store error with the context
cleared. -/
theorem C3_commit_kind_outside_closed_set :
    validKind "accrual" = false
    ∧ accrual_finish twoDeptDb [] 100 awaitingCommentCtx "test" "t9" =
        { db := twoDeptDb, ctx := Ctx.clear,
          replies := [Msg.accrualFailed "CHECK constraint failed: kind"] } :=
  ⟨by decide, by decide⟩

/-- An identifier strictly above every identifier in `l` is the maximum of
`l ++ [x]`. -/
theorem maxAccrualId_append (l : List AccrualRow) (x : AccrualRow)
    (h : ∀ r ∈ l, r.id < x.id) : maxAccrualId (l ++ [x]) = some x.id := by
  induction l with
  | nil => rfl
  | cons a t ih =>
    have ha := h a (List.mem_cons_self a t)
    have iht := ih (fun b hb => h b (List.mem_cons_of_mem a hb))
    rw [List.cons_append, maxAccrualId, iht]
    show some (max a.id x.id) = some x.id
    rw [max_eq_right (le_of_lt ha)]

/-- Mapping the period update over rows none of which carry the targeted
identifier changes nothing. -/
theorem map_period_noop (l : List AccrualRow) (m : Int) (pd : String)
    (h : ∀ r ∈ l, r.id ≠ m) :
    l.map (fun r => if r.id == m then { r with period := some pd } else r) = l := by
  induction l with
  | nil => rfl
  | cons a t ih =>
    have ha := h a (List.mem_cons_self a t)
    simp only [List.map_cons]
    rw [if_neg (by simp [ha]), ih (fun b hb => h b (List.mem_cons_of_mem a hb))]

/-- `assign_period_last` on a ledger just extended with a fresh-id record
of the employee sets the period of exactly that record. -/
theorem assign_period_last_append (dep : List DepartmentRow) (emp : List EmployeeRow)
    (l : List AccrualRow) (nd na : Int) (x : AccrualRow) (eid : Int) (pd : String)
    (hx : x.employee_id = eid)
    (hlt : ∀ r ∈ l, r.id < x.id) :
    assign_period_last ⟨dep, emp, l ++ [x], nd, na⟩ eid pd =
      ⟨dep, emp, l ++ [{ x with period := some pd }], nd, na⟩ := by
  have hfil : (l ++ [x]).filter (fun r => r.employee_id == eid) =
      l.filter (fun r => r.employee_id == eid) ++ [x] := by
    simp [List.filter_append, hx]
  have hmax : maxAccrualId ((l ++ [x]).filter (fun r => r.employee_id == eid)) = some x.id := by
    rw [hfil]
    exact maxAccrualId_append _ x (fun r hr => hlt r (List.mem_of_mem_filter hr))
  unfold assign_period_last
  rw [hmax]
  simp only [List.map_append, List.map_cons, List.map_nil]
  rw [map_period_noop l x.id pd (fun r hr => ne_of_lt (hlt r hr)), if_pos (by simp)]

/-- Appending one payout row of the employee lowers the recomputed balance
by exactly its amount. -/
theorem balance_after_payout (dep : List DepartmentRow) (emp : List EmployeeRow)
    (l : List AccrualRow) (nd na : Int) (x : AccrualRow) (eid : Int)
    (hx : x.employee_id = eid) (hk : x.kind = "payout") :
    get_employee_balance ⟨dep, emp, l ++ [x], nd, na⟩ false eid =
      get_employee_balance ⟨dep, emp, l, nd, na⟩ false eid - x.amount := by
  have hfil : (l ++ [x]).filter (fun r => r.employee_id == eid) =
      l.filter (fun r => r.employee_id == eid) ++ [x] := by
    simp [List.filter_append, hx]
  have h1 : posAmount x = 0 := by simp [posAmount, hk]
  have h2 : negAmount x = x.amount := by simp [negAmount, hk]
  rw [balance_eq, balance_eq]
  show ((((l ++ [x]).filter (fun r => r.employee_id == eid)).map posAmount).sum -
      (((l ++ [x]).filter (fun r => r.employee_id == eid)).map negAmount).sum) = _
  rw [hfil]
  simp only [List.map_append, List.sum_append, List.map_cons, List.map_nil,
    List.sum_cons, List.sum_nil, h1, h2]
  ring

/-- C4: GiveSalaryPayout with a pinned employee — on a strictly positive
balance exactly one payout record carrying the full balance (with the
current period label assigned) is appended and the recomputed balance
returns to zero; on a non-positive balance the handler performs no store
mutation and reports the no-op message. -/
theorem C4_give_salary_payout (db : Db) (sa : List Int) (uid : Int) (ctx : Ctx)
    (pd ts : String) (eid : Int)
    (hrole : uid ∈ sa)
    (hctx : truthyInt (ctx.getData "current_employee_id") = some eid)
    (hids : ∀ r ∈ db.accruals, r.id < db.nextAccrualId) :
    (0 < get_employee_balance db false eid →
      (give_salary db sa uid ctx pd ts).db.accruals = db.accruals ++
        [{ id := db.nextAccrualId, employee_id := eid,
           amount := get_employee_balance db false eid, kind := "payout",
           comment := "Выплата зарплаты за " ++ pd, period := some pd,
           created_at := ts, created_by := uid }]
      ∧ get_employee_balance (give_salary db sa uid ctx pd ts).db false eid = 0
      ∧ (give_salary db sa uid ctx pd ts).replies =
          [Msg.salaryPaid (get_employee_balance db false eid), Msg.card eid])
    ∧ (get_employee_balance db false eid ≤ 0 →
      (give_salary db sa uid ctx pd ts).db = db
      ∧ (give_salary db sa uid ctx pd ts).ctx = ctx
      ∧ (give_salary db sa uid ctx pd ts).replies = [Msg.nothingToPay]) := by
  have hr : get_user_role sa db false uid = ROLE_SUPERADMIN := by
    simp [get_user_role, hrole]
  have hk : validKind "payout" = true := rfl
  constructor
  · intro hpos
    have hassign := assign_period_last_append db.departments db.employees db.accruals
      db.nextDeptId (db.nextAccrualId + 1)
      { id := db.nextAccrualId, employee_id := eid,
        amount := get_employee_balance db false eid, kind := "payout",
        comment := "Выплата зарплаты за " ++ pd, period := none,
        created_at := ts, created_by := uid } eid pd rfl hids
    have hout : give_salary db sa uid ctx pd ts =
        { db := { db with
            accruals := (db.accruals ++
              [{ id := db.nextAccrualId, employee_id := eid,
                 amount := get_employee_balance db false eid, kind := "payout",
                 comment := "Выплата зарплаты за " ++ pd, period := some pd,
                 created_at := ts, created_by := uid }]),
            nextAccrualId := db.nextAccrualId + 1 },
          ctx := ctx,
          replies := [Msg.salaryPaid (get_employee_balance db false eid), Msg.card eid] } := by
      simp only [give_salary, hr, beq_self_eq_true, if_true, hctx]
      rw [if_neg (not_le.mpr hpos)]
      simp only [add_accrual, hk, if_true]
      rw [hassign]
    refine ⟨by rw [hout], ?_, by rw [hout]⟩
    rw [hout]
    have hbal := balance_after_payout db.departments db.employees db.accruals
      db.nextDeptId (db.nextAccrualId + 1)
      { id := db.nextAccrualId, employee_id := eid,
        amount := get_employee_balance db false eid, kind := "payout",
        comment := "Выплата зарплаты за " ++ pd, period := some pd,
        created_at := ts, created_by := uid } eid rfl rfl
    rw [hbal]
    show get_employee_balance db false eid - get_employee_balance db false eid = 0
    exact sub_self _
  · intro hneg
    have hout : give_salary db sa uid ctx pd ts =
        { db := db, ctx := ctx, replies := [Msg.nothingToPay] } := by
      simp only [give_salary, hr, beq_self_eq_true, if_true, hctx]
      rw [if_pos hneg]
    exact ⟨by rw [hout], by rw [hout], by rw [hout]⟩

/-- C4 witness: employee 5 with bonus 10000 and deduction 2000 — the
payout of the full balance is appended with the period label and the
recomputed balance is zero. -/
theorem C4_give_salary_payout_witness :
    (give_salary ledgerDbA [100] 100 pinnedCtx "2025-11" "t9").db.accruals =
      ledgerDbA.accruals ++
        [{ id := ledgerDbA.nextAccrualId, employee_id := 5,
           amount := get_employee_balance ledgerDbA false 5, kind := "payout",
           comment := "Выплата зарплаты за " ++ "2025-11", period := some "2025-11",
           created_at := "t9", created_by := 100 }]
    ∧ get_employee_balance (give_salary ledgerDbA [100] 100 pinnedCtx "2025-11" "t9").db false 5 = 0
    ∧ (give_salary ledgerDbA [100] 100 pinnedCtx "2025-11" "t9").replies =
        [Msg.salaryPaid (get_employee_balance ledgerDbA false 5), Msg.card 5] :=
  (C4_give_salary_payout ledgerDbA [100] 100 pinnedCtx "2025-11" "t9" 5 (by decide) rfl
      (by decide)).1 (of_decide_eq_true (by with_unfolding_all rfl))

/-- A value accepted by `validate_amount` is strictly positive. -/
theorem validate_amount_pos (s : String) (a : Rat) (h : validate_amount s = some a) :
    0 < a := by
  unfold validate_amount at h
  cases hp : pyFloatChars (s.toList.map (fun c => if c == ',' then '.' else c)) with
  | none =>
    rw [hp] at h
    cases h
  | some b =>
    rw [hp] at h
    dsimp only [] at h
    by_cases hb : b > 0
    · rw [if_pos hb] at h
      obtain rfl := Option.some.inj h
      exact hb
    · rw [if_neg hb] at h
      cases h

/-- C8 (amended): at the SetSalary amount step exactly the strictly
positive decimal amounts are accepted — an accepted amount is committed by
overwriting the salary of the pinned employee, with only the FSM state
reset; zero, negative or malformed input re-prompts the same step; and a
missing pinned selection at commit is a terminal error clearing the
context, not a re-prompt. -/
theorem C8_set_salary_flow (db : Db) (ctx : Ctx) (text : String) :
    (∀ a eid, validate_amount text = some a →
      truthyInt (ctx.getData "current_employee_id") = some eid →
      0 < a
      ∧ change_salary_finish db ctx text =
          { db := set_employee_salary db eid a, ctx := ctx.setState none,
            replies := [Msg.salaryChanged a, Msg.card eid] })
    ∧ (∀ a, validate_amount text = some a →
      truthyInt (ctx.getData "current_employee_id") = none →
      change_salary_finish db ctx text =
        { db := db, ctx := Ctx.clear, replies := [Msg.noEmployeeSelected] })
    ∧ (validate_amount text = none →
      change_salary_finish db ctx text =
        { db := db, ctx := ctx, replies := [Msg.badAmount] }) := by
  refine ⟨?_, ?_, ?_⟩
  · intro a eid hv hctx
    have hpos := validate_amount_pos text a hv
    refine ⟨hpos, ?_⟩
    simp only [change_salary_finish, hv, hctx]
    rw [if_neg (not_lt.mpr (le_of_lt hpos))]
  · intro a hv hctx
    have hpos := validate_amount_pos text a hv
    simp only [change_salary_finish, hv, hctx]
    rw [if_neg (not_lt.mpr (le_of_lt hpos))]
  · intro hv
    simp only [change_salary_finish, hv]

/-- C8 counterexample: the claim as stated fails at the non-negative
decimal `0` — the SetSalary amount step rejects zero, re-prompting the
same step with the pinned context untouched and no commit performed. -/
theorem C8_zero_amount_rejected :
    validate_amount "0" = none
    ∧ change_salary_finish salaryDb setSalaryCtx "0" =
        { db := salaryDb, ctx := setSalaryCtx, replies := [Msg.badAmount] } :=
  ⟨by with_unfolding_all rfl, by with_unfolding_all rfl⟩

/-- C8 witness: the strictly positive amount `50000` is accepted and
committed against the pinned employee 5. -/
theorem C8_set_salary_flow_witness :
    (0 : Rat) < 50000
    ∧ change_salary_finish salaryDb setSalaryCtx "50000" =
        { db := set_employee_salary salaryDb 5 50000, ctx := setSalaryCtx.setState none,
          replies := [Msg.salaryChanged 50000, Msg.card 5] } :=
  (C8_set_salary_flow salaryDb setSalaryCtx "50000").1 50000 5
    (by with_unfolding_all rfl) rfl
